import Mathlib

/-!
Shallow embedding of `src/analytics_buffer.py` (module `analytics_buffer`).

Modelling conventions:
- Python exceptions are modelled with `Except PyError`; a method that both
  mutates `self` and may raise returns the post-call state together with the
  outcome, because mutations made before a raise persist in Python.
- The module imports `logging` but never binds the name `logger`
  (see `moduleGlobals`), so evaluating any `logger.…` expression raises
  `NameError`.  Likewise the instance never gains the attributes
  `max_items`, `api_call_function`, `flush` or `track` (see `instanceAttrs`
  and `classAttrs`), so reading them raises `AttributeError`.
- The api callable (the sink) is threaded as an explicit function argument;
  `FlushResult.sinkCalls` records every batch actually passed to it.
- `threading.Timer` handles are abstracted to a Boolean "a timer is set";
  `threading.Lock` serialises the bodies, which the sequential embedding
  already reflects.
-/

namespace AnalyticsBuffer

/-- Opaque event payload: the buffer never inspects an event's contents, only
its presence, so a `Dict[str, Any]` is abstracted to a `Nat` tag and the
`Optional` wrapper to `Option`. -/
abbrev Event := Nat

/-- Python exceptions that the module can raise. -/
inductive PyError where
  | valueError
  | nameError
  | attributeError
  | apiError
deriving DecidableEq

/-- Mutable state of an `AnalyticsBuffer` instance: the fields assigned to
`self` in `__init__` (lines 33-49 of `analytics_buffer.py`), minus the lock
and with the `threading.Timer` handle abstracted to a Boolean. -/
structure BufferState where
  max_size : Int
  flush_interval : ℚ
  buffer : List Event
  timer : Bool
  is_shutting_down : Bool
  is_flushing : Bool
  total_events_tracked : Nat
  successful_flushes : Nat
  failed_flushes : Nat
deriving DecidableEq

/-- Result of one call into the flush machinery: final state, the batches
passed to the sink during the call, and the outcome. -/
structure FlushResult where
  state : BufferState
  sinkCalls : List (List Event)
  result : Except PyError Unit

/-- Names bound at module level in `analytics_buffer.py`: the imports on
lines 1-5 and the class on line 8.  Neither `logger` nor `max_items` is
among them. -/
def moduleGlobals : List String :=
  ["threading", "time", "Any", "Dict", "List", "Optional", "Callable",
   "logging", "default_api_call", "AnalyticsBuffer"]

/-- Attributes assigned on `self` by `__init__` (lines 33-49).  The sink is
stored as `api_callable`; no `api_call_function`, `max_items` or `track`
attribute is ever created. -/
def instanceAttrs : List String :=
  ["max_size", "flush_interval", "api_callable", "buffer", "timer",
   "is_shutting_down", "is_flushing", "lock",
   "total_events_tracked", "successful_flushes", "failed_flushes"]

/-- Methods defined in the class body of `AnalyticsBuffer`.  `track` is not
among them: it is a local function nested inside `__init__` (line 56).
There is also no method named `flush`, although lines 93 and 107 refer to
`self.flush`. -/
def classAttrs : List String :=
  ["__init__", "_start_timer", "_flush", "flush_now", "shutdown", "get_stats"]

/-- Python attribute lookup on an `AnalyticsBuffer` instance: succeeds for
instance and class attributes, raises `AttributeError` otherwise. -/
def getattrBuffer (name : String) : Except PyError Unit :=
  if name ∈ instanceAttrs ∨ name ∈ classAttrs then .ok () else .error .attributeError

/-- State that lines 33-49 of `__init__` assemble on `self` for a given
configuration: empty buffer, no timer, flags down, all counters zero. -/
def initFields (max_size : Int) (flush_interval : ℚ) : BufferState :=
  { max_size := max_size, flush_interval := flush_interval,
    buffer := [], timer := false,
    is_shutting_down := false, is_flushing := false,
    total_events_tracked := 0, successful_flushes := 0, failed_flushes := 0 }

/-- Shallow embedding of `AnalyticsBuffer.__init__` (lines 10-54).
Lines 26-30 validate the configuration and raise `ValueError` before any
field is assigned.  Lines 33-49 then assign the fields (`initFields`), and
line 51 evaluates `logger.info(f"… max_items={max_items} …")`: both
`logger` and `max_items` are unbound names, so `NameError` is raised and
the constructor never returns an instance. -/
def init (max_size : Int) (flush_interval : ℚ) : Except PyError BufferState :=
  if max_size ≤ 0 then .error .valueError
  else if flush_interval ≤ 0 then .error .valueError
  else .error .nameError

/-- Evaluation of `buffer.track(event)` on an instance: `track` is a local
function nested in `__init__`, never bound to the instance or the class
(see `classAttrs` and `instanceAttrs`), so the attribute lookup raises
`AttributeError` before any code of the nested function runs and the state
is untouched. -/
def track (s : BufferState) (_event : Option Event) :
    BufferState × Except PyError Bool :=
  (s, .error .attributeError)

/-- Body of the local function `track` defined at line 56 of
`analytics_buffer.py`, as it would execute if it could be invoked (it is
unreachable through the instance, see `track`).
Line 65 tests `event is None`; line 66 then evaluates `logger.warning`,
an unbound name, raising `NameError` before `return False` on line 67.
Line 70 tests `is_shutting_down`; line 71 raises `NameError` the same way.
Otherwise lines 76-77 (under the lock) append the event and increment
`total_events_tracked`, and line 79 evaluates `logger.debug`, raising
`NameError`: the mutations persist, but lines 84-95 (timer start, the size
check against the absent `self.max_items`, `return True`) never run. -/
def track_body (s : BufferState) (event : Option Event) :
    BufferState × Except PyError Bool :=
  match event with
  | none => (s, .error .nameError)
  | some e =>
    if s.is_shutting_down then (s, .error .nameError)
    else
      ({ s with buffer := s.buffer ++ [e],
                total_events_tracked := s.total_events_tracked + 1 },
       .error .nameError)

/-- Shallow embedding of `AnalyticsBuffer._start_timer` (lines 97-111).
With a timer already set it returns at line 105.  Otherwise line 107
evaluates `self.flush` as the `threading.Timer` callback: no attribute
`flush` exists (the methods are `_flush` and `flush_now`), so
`AttributeError` is raised before any timer is created. -/
def _start_timer (s : BufferState) : BufferState × Except PyError Unit :=
  if s.timer then (s, .ok ())
  else (s, .error .attributeError)

/-- Shallow embedding of `AnalyticsBuffer._flush` (lines 113-183).  `sink`
stands for the configured api callable.
If `is_flushing` is set, line 125 evaluates `logger.debug`, an unbound
name, raising `NameError` before the `return` on line 126.
If the buffer is empty, line 130 raises `NameError` the same way, before
the timer cancellation on lines 132-134 can run.
Otherwise line 137 sets `is_flushing`; if a timer is set, lines 141-142
cancel and clear it and line 143 raises `NameError`, leaving `is_flushing`
stuck true.  With no timer, lines 146-147 snapshot the buffer and the lock
is released; inside the `try`, line 151 evaluates `logger.info`, raising
`NameError` before line 152 can evaluate `self.api_call_function` (an
attribute the constructor never assigns) — the sink is never invoked.  The
`except` branch re-acquires the lock, lines 170-171 increment
`failed_flushes` and clear `is_flushing`, and line 173 evaluates
`logger.error`, raising `NameError`, which escapes `_flush` before
`_start_timer` on line 179 can run. -/
def _flush (sink : List Event → Except PyError Unit) (s : BufferState) :
    FlushResult :=
  if s.is_flushing then
    { state := s, sinkCalls := [], result := .error .nameError }
  else if s.buffer.length = 0 then
    { state := s, sinkCalls := [], result := .error .nameError }
  else if s.timer then
    { state := { s with is_flushing := true, timer := false },
      sinkCalls := [], result := .error .nameError }
  else
    { state := { s with is_flushing := false,
                        failed_flushes := s.failed_flushes + 1 },
      sinkCalls := [], result := .error .nameError }

/-- Shallow embedding of `AnalyticsBuffer.flush_now` (lines 185-190):
line 189 evaluates `logger.info`, an unbound name, raising `NameError`
before `self._flush()` on line 190 is reached; the state is untouched. -/
def flush_now (sink : List Event → Except PyError Unit) (s : BufferState) :
    FlushResult :=
  { state := s, sinkCalls := [], result := .error .nameError }

/-- Shallow embedding of `AnalyticsBuffer.shutdown` (lines 192-224):
line 200 evaluates `logger.info`, an unbound name, raising `NameError`
before `is_shutting_down` is set on line 202; the state is untouched and
nothing is drained. -/
def shutdown (sink : List Event → Except PyError Unit) (s : BufferState)
    (timeout : ℚ) : FlushResult :=
  { state := s, sinkCalls := [], result := .error .nameError }

/-- Sink that accepts every batch. -/
def sinkOk : List Event → Except PyError Unit := fun _ => .ok ()

/-- Sink that raises on every batch. -/
def sinkFail : List Event → Except PyError Unit := fun _ => .error .apiError

/-- State as `__init__` would leave it for `max_size = 5`,
`flush_interval = 1`. -/
def sEmpty : BufferState := initFields 5 1

/-- State holding one buffered event, no timer, idle. -/
def sOne : BufferState :=
  ⟨5, 1, [0], false, false, false, 1, 0, 0⟩

/-- State holding one buffered event with an active timer, idle. -/
def sTimer : BufferState :=
  ⟨5, 1, [0], true, false, false, 1, 0, 0⟩

/-- State holding one buffered event while a flush is in progress. -/
def sFlushing : BufferState :=
  ⟨5, 1, [0], true, false, true, 1, 0, 0⟩

/-- State of a buffer that is shutting down. -/
def sShut : BufferState :=
  ⟨5, 1, [], false, true, false, 0, 0, 0⟩

/-- C1: evaluation of the flush routine on the failing input (one buffered
event, no timer, not flushing, a sink that raises).  The batch is kept,
`failed_flushes` is incremented and `is_flushing` ends false as the claim
says, but no retry timer is scheduled despite the non-empty buffer, a
`NameError` escapes `_flush`, and the sink is never even called — so the
error raised inside the `try` is never the sink's. -/
theorem c1_failure_branch_diverges :
    _flush sinkFail sOne =
      { state := { sOne with failed_flushes := 1 },
        sinkCalls := [], result := .error .nameError } ∧
    ({ sOne with failed_flushes := 1 } : BufferState).timer = false ∧
    ({ sOne with failed_flushes := 1 } : BufferState).buffer ≠ [] :=
  ⟨rfl, rfl, by decide⟩

/-- C2: evaluation of the flush routine on the failing input (one buffered
event, no timer, not flushing, an always-succeeding sink).  The success
branch is unreachable: the sink receives no call, `successful_flushes`
stays 0, the buffer is not drained, `failed_flushes` is incremented
instead, and a `NameError` escapes. -/
theorem c2_success_branch_unreachable :
    (_flush sinkOk sOne).sinkCalls = [] ∧
    (_flush sinkOk sOne).state.successful_flushes = 0 ∧
    (_flush sinkOk sOne).state.buffer = [0] ∧
    (_flush sinkOk sOne).state.failed_flushes = 1 ∧
    (_flush sinkOk sOne).result = .error .nameError :=
  ⟨rfl, rfl, rfl, rfl, rfl⟩

/-- C3: when `is_flushing` is already true the flush routine leaves every
field unchanged and never calls the sink, but instead of returning normally
it raises `NameError` (line 125), which escapes to the caller. -/
theorem c3_reentrant_flush_raises (sink : List Event → Except PyError Unit)
    (s : BufferState) (h : s.is_flushing = true) :
    _flush sink s =
      { state := s, sinkCalls := [], result := .error .nameError } := by
  simp [_flush, h]

/-- C3 witness: the reentrancy guard evaluated on a concrete in-progress
state. -/
theorem c3_reentrant_flush_raises_witness :
    sFlushing.is_flushing = true ∧
    _flush sinkOk sFlushing =
      { state := sFlushing, sinkCalls := [], result := .error .nameError } :=
  ⟨rfl, c3_reentrant_flush_raises sinkOk sFlushing rfl⟩

/-- C4: the size-triggered flush can never happen.  Valid construction
already raises `NameError`; `track` is not an attribute of the instance or
the class, so every enqueue raises `AttributeError` and changes nothing —
even a caller that swallowed each error and retried five enqueues would
leave the state unchanged, buffer no events, and trigger no flush. -/
theorem c4_capacity_trigger_unreachable :
    init 5 1000 = .error .nameError ∧
    getattrBuffer ("track") = .error .attributeError ∧
    track sEmpty (some 0) = (sEmpty, .error .attributeError) ∧
    List.foldl (fun st e => (track st (some e)).1) sEmpty [0, 1, 2, 3, 4]
      = sEmpty :=
  ⟨rfl, rfl, rfl, rfl⟩

/-- C5: rejection is signalled by an exception, not a boolean.  Evaluating
`buffer.track` raises `AttributeError` before any argument is examined;
the nested body itself would raise `NameError` at the `logger.warning`
calls on lines 66 and 71 instead of returning `False`, both for a `None`
event and during shutdown.  No state is mutated in any of these cases. -/
theorem c5_rejection_raises_not_returns :
    track sEmpty none = (sEmpty, .error .attributeError) ∧
    track sShut (some 0) = (sShut, .error .attributeError) ∧
    track_body sEmpty none = (sEmpty, .error .nameError) ∧
    track_body sShut (some 0) = (sShut, .error .nameError) :=
  ⟨rfl, rfl, rfl, rfl⟩

/-- C6: an accepted enqueue never returns success.  Evaluating
`buffer.track` raises `AttributeError` without touching the state; the
nested body would append the event and increment `total_events_tracked`
but then raise `NameError` at line 79 instead of returning `True`. -/
theorem c6_accepted_enqueue_never_returns_true :
    track sEmpty (some 7) = (sEmpty, .error .attributeError) ∧
    track_body sEmpty (some 7) =
      ({ sEmpty with buffer := [7], total_events_tracked := 1 },
       .error .nameError) :=
  ⟨rfl, rfl⟩

/-- C7: the configuration checks do raise `ValueError` before any field is
assigned, but a valid construction does not succeed with the zeroed state
`initFields` would produce: line 51 raises `NameError` instead. -/
theorem c7_construction :
    init 0 1 = .error .valueError ∧
    init 5 0 = .error .valueError ∧
    init 5 1 = .error .nameError ∧
    initFields 5 1 = sEmpty :=
  ⟨rfl, rfl, rfl, rfl⟩

/-- C8 counterexample: flushing a non-empty buffer while a timer is active
raises `NameError` at line 143, before the `try` block: no `AttributeError`
is involved, `failed_flushes` is not incremented, and `is_flushing` is left
stuck true — refuting the claim that every flush of a non-empty buffer is
caught as the failure branch with `failed_flushes` incremented. -/
theorem c8_timer_flush_counterexample :
    sTimer.buffer ≠ [] ∧
    (_flush sinkOk sTimer).result = .error .nameError ∧
    (_flush sinkOk sTimer).state.failed_flushes = 0 ∧
    (_flush sinkOk sTimer).state.is_flushing = true :=
  ⟨by decide, rfl, rfl, rfl⟩

/-- C8 amended: no operation ever invokes the sink or changes
`successful_flushes`, and construction never yields an instance; in
particular `api_call_function` is indeed an attribute the constructor never
assigns, though the flush routine fails on the unbound `logger` before even
reaching it. -/
theorem c8_sink_never_invoked :
    (∀ (sink : List Event → Except PyError Unit) (s : BufferState),
      (_flush sink s).sinkCalls = [] ∧
      (_flush sink s).state.successful_flushes = s.successful_flushes) ∧
    (∀ (sink : List Event → Except PyError Unit) (s : BufferState),
      (flush_now sink s).sinkCalls = [] ∧
      (flush_now sink s).state.successful_flushes = s.successful_flushes) ∧
    (∀ (sink : List Event → Except PyError Unit) (s : BufferState) (t : ℚ),
      (shutdown sink s t).sinkCalls = [] ∧
      (shutdown sink s t).state.successful_flushes = s.successful_flushes) ∧
    (∀ (s : BufferState) (ev : Option Event),
      (track s ev).1.successful_flushes = s.successful_flushes) ∧
    (∀ (s : BufferState) (ev : Option Event),
      (track_body s ev).1.successful_flushes = s.successful_flushes) ∧
    (∀ (ms : Int) (fi : ℚ) (st : BufferState), init ms fi ≠ .ok st) ∧
    getattrBuffer ("api_call_function") = .error .attributeError := by
  refine ⟨?_, ?_, ?_, ?_, ?_, ?_, rfl⟩
  · intro sink s
    unfold _flush
    split
    · exact ⟨rfl, rfl⟩
    split
    · exact ⟨rfl, rfl⟩
    split
    · exact ⟨rfl, rfl⟩
    · exact ⟨rfl, rfl⟩
  · intro sink s
    exact ⟨rfl, rfl⟩
  · intro sink s t
    exact ⟨rfl, rfl⟩
  · intro s ev
    rfl
  · intro s ev
    cases ev with
    | none => rfl
    | some e =>
      by_cases h : s.is_shutting_down
      · simp [track_body, h]
      · simp [track_body, h]
  · intro ms fi st h
    unfold init at h
    split at h
    · exact Except.noConfusion h
    split at h
    · exact Except.noConfusion h
    · exact Except.noConfusion h

/-- C9: `track` is neither an instance attribute assigned in `__init__` nor
a method of the class, so for every state and every event,
`buffer.track(event)` raises `AttributeError` (leaving the state untouched)
instead of returning a boolean. -/
theorem c9_track_not_exposed :
    ("track" ∉ instanceAttrs) ∧ ("track" ∉ classAttrs) ∧
    getattrBuffer ("track") = .error .attributeError ∧
    (∀ (s : BufferState) (ev : Option Event),
      track s ev = (s, .error .attributeError)) :=
  ⟨by decide, by decide, rfl, fun _ _ => rfl⟩

/-- C10: neither `logger` nor `max_items` is bound at module level, so every
construction with a valid configuration raises `NameError` after assigning
the fields, and no construction whatsoever returns an instance. -/
theorem c10_valid_construction_raises :
    ("logger" ∉ moduleGlobals) ∧ ("max_items" ∉ moduleGlobals) ∧
    (∀ (ms : Int) (fi : ℚ), 0 < ms → 0 < fi →
      init ms fi = .error .nameError) ∧
    (∀ (ms : Int) (fi : ℚ) (st : BufferState), init ms fi ≠ .ok st) := by
  refine ⟨by decide, by decide, ?_, ?_⟩
  · intro ms fi h1 h2
    unfold init
    rw [if_neg (not_le.mpr h1), if_neg (not_le.mpr h2)]
  · intro ms fi st h
    unfold init at h
    split at h
    · exact Except.noConfusion h
    split at h
    · exact Except.noConfusion h
    · exact Except.noConfusion h

/-- C10 witness: a concrete valid configuration on which construction
raises `NameError`. -/
theorem c10_valid_construction_raises_witness :
    0 < (5 : Int) ∧ 0 < (1 : ℚ) ∧ init 5 1 = .error .nameError :=
  ⟨by norm_num, by norm_num,
   c10_valid_construction_raises.2.2.1 5 1 (by norm_num) (by norm_num)⟩

end AnalyticsBuffer
